import Mathlib

/-!
# Verification of the Session Router of a translator chat-bot

This file gives a shallow embedding of the message-routing and per-user
preference logic of `src/bot.py` (the "Session Router" of the spec) and
proves the spec's claims about it.

Modelling conventions:
* The process-wide Python dict `user_data` is modelled as a partial map
  `UserData := Nat → Option UserPref`.
* The external Translation Collaborator (`deep_translator.GoogleTranslator`)
  is an abstract parameter `Translator` returning `Except`: `.error`
  models a raised exception.
* A Python function that can raise an uncaught exception is modelled with
  an `Option` result; `none` means the exception propagates and the shared
  state is left as it was at the raise point.
* Handlers return, besides the new state, a trace of translation calls
  (`CallRec`) actually issued, and the outgoing response.
* Python `str.split(sep)` is modelled by `pySplit` on the string's
  character list; it agrees with Python's semantics for a one-character
  separator (empty string gives one empty field, trailing separator gives
  a trailing empty field).
-/

namespace Bot

/-- A per-user preference record, mirroring the dict value
`{'target_language': ..., 'mode': ...}` stored in `user_data`. -/
structure UserPref where
  target_language : String
  mode : String
deriving DecidableEq

/-- The process-wide `user_data` dict, as a partial map from user id. -/
def UserData : Type := Nat → Option UserPref

/-- The empty `user_data = {}` at process start. -/
def emptyData : UserData := fun _ => none

/-- Dict assignment `user_data[uid] = p`. -/
def storePut (d : UserData) (uid : Nat) (p : UserPref) : UserData :=
  fun u => if u = uid then some p else d u

/-- An inline-keyboard button with its display label and callback token,
mirroring `InlineKeyboardButton(label, callback_data=...)`. -/
structure InlineButton where
  label : String
  callback_data : String
deriving DecidableEq

/-- One translation request issued to the Translation Collaborator:
`GoogleTranslator(source=..., target=...).translate(text)`. -/
structure CallRec where
  source : String
  target : String
  text : String
deriving DecidableEq

/-- An outgoing response of the router: plain reply, reply with the main
reply keyboard, reply with an inline keyboard, or an edit of the
triggering message (used by the callback handler). -/
inductive Outgoing where
  | text (s : String)
  | textWithMain (s : String) (kb : List (List String))
  | textWithInline (s : String) (kb : List (List InlineButton))
  | editText (s : String)
deriving DecidableEq

/-- The external Translation Collaborator: source, target, text to
translated text, or a raised error. -/
def Translator : Type := String → String → String → Except String String

/-- The `LANGUAGES` catalog of `bot.py`, in its (insertion-order) sequence. -/
def LANGUAGES : List (String × String) :=
  [("uz", "🇺🇿 O\x27zbekcha"),
   ("en", "🇬🇧 English"),
   ("ru", "🇷🇺 Русский"),
   ("tr", "🇹🇷 Türkçe"),
   ("ar", "🇸🇦 العربية"),
   ("es", "🇪🇸 Español")]

/-- Association-list lookup modelling Python dict lookup `LANGUAGES.get`. -/
def lookupStr : List (String × String) → String → Option String
  | [], _ => none
  | (k, v) :: rest, key => if key = k then some v else lookupStr rest key

/-- `get_main_keyboard` of `bot.py`: the persistent main-menu keyboard. -/
def get_main_keyboard : List (List String) :=
  [["🌍 Tarjima", "⚙️ Sozlamalar"], ["ℹ️ Yordam"]]

/-- The body of the `for i in range(0, len(langs), 2)` loop of
`get_language_keyboard`: consume the catalog two entries at a time,
emitting one row per iteration (a one-button row for a trailing odd
entry). -/
def buildKeyboardRows : List (String × String) → List (List InlineButton)
  | [] => []
  | [a] => [[⟨a.2, "lang_" ++ a.1⟩]]
  | a :: b :: rest =>
      [⟨a.2, "lang_" ++ a.1⟩, ⟨b.2, "lang_" ++ b.1⟩] :: buildKeyboardRows rest

/-- `get_language_keyboard` of `bot.py`: the inline language picker. -/
def get_language_keyboard : List (List InlineButton) :=
  buildKeyboardRows LANGUAGES

/-- The lazy-create step `if user_id not in user_data:
user_data[user_id] = {'target_language': 'en', 'mode': 'translate'}`,
written identically in `start`, `language_callback` and `handle_message`. -/
def ensure_user (d : UserData) (uid : Nat) : UserData :=
  match d uid with
  | some _ => d
  | none => storePut d uid ⟨"en", "translate"⟩

/-- The read `user_data.get(user_id, {}).get('target_language', 'en')`
performed by `translate_text` (records always carry the key, so the
inner default only fires when the record is absent). -/
def targetOf (d : UserData) (uid : Nat) : String :=
  match d uid with
  | some p => p.target_language
  | none => "en"

/-- The welcome text sent by `start`. -/
def welcome_text : String :=
  "\n🤖 Assalomu aleykum! Men tarjimon botman!\n\n✨ Imkoniyatlar:\n• 🌍 Matnlarni tarjima qilish\n• ⚙️ Tilni tanlash\n• 🆓 Bepul xizmat\n\nMatn yuboring, tarjima qilaman! 🚀\n    "

/-- The help text sent by `help_command`. -/
def help_text : String :=
  "\n📖 Qo\x27llanma:\n\n1️⃣ 🌍 Tarjima - Matn yuboring\n2️⃣ ⚙️ Sozlamalar - Tilni tanlang\n3️⃣ ℹ️ Yordam - Bu xabar\n\nFaqat matn yuboring, avtomatik tarjima bo\x27ladi! 😊\n    "

/-- Handler `start`: lazily create the record, reply with the welcome
text and the main keyboard. -/
def start (d : UserData) (uid : Nat) : UserData × Outgoing :=
  (ensure_user d uid, .textWithMain welcome_text get_main_keyboard)

/-- Handler `help_command`: fixed help text, no state access. -/
def help_command : Outgoing := .text help_text

/-- Handler `settings`: language prompt plus the inline picker, no state
access. -/
def settings : Outgoing :=
  .textWithInline "⚙️ Tarjima tilini tanlang:" get_language_keyboard

/-- Handler `translate_text`: read the target language (default "en"),
call the Translation Collaborator once; a success is wrapped in the
translation header, any raised error is caught and replaced by the fixed
failure message. The total return type records that nothing propagates
out of the `try`/`except` boundary. -/
def translate_text (tr : Translator) (d : UserData) (uid : Nat) (text : String) :
    UserData × List CallRec × Outgoing :=
  let target_lang := targetOf d uid
  match tr "auto" target_lang text with
  | .ok translated =>
      (d, [⟨"auto", target_lang, text⟩], .text ("🌍 Tarjima:\n\n" ++ translated))
  | .error _ =>
      (d, [⟨"auto", target_lang, text⟩],
        .text "❌ Tarjima xatoligi. Qaytadan urinib ko\x27ring.")

/-- Python `token.split('_')` for the one-character separator, on the
character list of the string. -/
def pySplit (sep : Char) : List Char → List (List Char)
  | [] => [[]]
  | c :: cs =>
      if c = sep then [] :: pySplit sep cs
      else
        match pySplit sep cs with
        | [] => [[c]]
        | r :: rs => (c :: r) :: rs

/-- The parse `query.data.split('_')[1]` of `language_callback`; `none`
models the `IndexError` raised when the token has no `_`. -/
def parse_lang_code (token : String) : Option String :=
  ((pySplit '_' token.data).map (fun l => String.mk l))[1]?

/-- Handler `language_callback`: parse the token, lazily create the
record, commit the parsed code as `target_language` (unvalidated), and
edit the message with a confirmation naming the catalog label or
"Unknown". `none` models the `IndexError` from the parse propagating;
the inner `none` branch of the commit models the `KeyError` of
`user_data[user_id][...]`, unreachable after the lazy create. -/
def language_callback (d : UserData) (uid : Nat) (token : String) :
    Option (UserData × Outgoing) :=
  match parse_lang_code token with
  | none => none
  | some lang_code =>
      let d1 := ensure_user d uid
      let d2 := match d1 uid with
        | some p => storePut d1 uid { p with target_language := lang_code }
        | none => d1
      let lang_name := (lookupStr LANGUAGES lang_code).getD "Unknown"
      some (d2, .editText ("✅ Til o\x27rnatildi: " ++ lang_name ++ "\n\nMatn yuboring!"))

/-- The state left behind by `language_callback`: the committed state on
success, the unmodified state when the parse raises (no mutation happens
before the raise point). -/
def lcState (d : UserData) (uid : Nat) (token : String) : UserData :=
  match language_callback d uid token with
  | some (d', _) => d'
  | none => d

/-- Handler `handle_message`: lazily create the record, then branch on
the three reserved menu labels, falling through to `translate_text` for
free text. -/
def handle_message (tr : Translator) (d : UserData) (uid : Nat) (text : String) :
    UserData × List CallRec × Outgoing :=
  let d1 := ensure_user d uid
  if text = "🌍 Tarjima" then
    (d1, [], .text "Matn yuboring, tarjima qilaman!")
  else if text = "⚙️ Sozlamalar" then
    (d1, [], settings)
  else if text = "ℹ️ Yordam" then
    (d1, [], help_command)
  else
    translate_text tr d1 uid text

/-- An incoming event, per the handlers registered in `main`:
`/start`, `/help`, a non-command text message, or a callback query. -/
inductive Event where
  | startCmd (uid : Nat)
  | helpCmd (uid : Nat)
  | textMsg (uid : Nat) (text : String)
  | callback (uid : Nat) (token : String)

/-- The dispatch of `main`: `CommandHandler("start", start)`,
`CommandHandler("help", help_command)`, `MessageHandler(TEXT & ~COMMAND,
handle_message)`, `CallbackQueryHandler(language_callback,
pattern='^lang_')` (a callback token not matching the pattern reaches no
handler). -/
def dispatch (tr : Translator) (d : UserData) :
    Event → UserData × List CallRec × List Outgoing
  | .startCmd uid =>
      let r := start d uid
      (r.1, [], [r.2])
  | .helpCmd _ => (d, [], [help_command])
  | .textMsg uid text =>
      let r := handle_message tr d uid text
      (r.1, r.2.1, [r.2.2])
  | .callback uid token =>
      if "lang_".data.isPrefixOf token.data then
        match language_callback d uid token with
        | some (d', o) => (d', [], [o])
        | none => (d, [], [])
      else
        (d, [], [])

/-- A translator that always succeeds, echoing its input; used to
instantiate the abstract collaborator at concrete inputs. -/
def okTr : Translator := fun _ _ text => .ok text

/-- A translator that always raises; used to exercise the failure path
at concrete inputs. -/
def failTr : Translator := fun _ _ _ => .error "boom"

/-- The record held (or about to be created) for `uid`: the stored one if
present, the default otherwise. -/
def prefAt (d : UserData) (uid : Nat) : UserPref :=
  match d uid with
  | some p => p
  | none => ⟨"en", "translate"⟩

theorem storePut_at (d : UserData) (uid : Nat) (p : UserPref) :
    storePut d uid p uid = some p := by
  simp [storePut]

theorem storePut_ne (d : UserData) (uid : Nat) (p : UserPref) (v : Nat)
    (h : v ≠ uid) : storePut d uid p v = d v := by
  simp [storePut, h]

theorem storePut_storePut (d : UserData) (uid : Nat) (p : UserPref) :
    storePut (storePut d uid p) uid p = storePut d uid p := by
  funext u
  by_cases h : u = uid <;> simp [storePut, h]

theorem ensure_at (d : UserData) (uid : Nat) :
    ensure_user d uid uid = some (prefAt d uid) := by
  cases h : d uid <;> simp [ensure_user, prefAt, h, storePut]

theorem ensure_ne (d : UserData) (uid v : Nat) (h : v ≠ uid) :
    ensure_user d uid v = d v := by
  cases hu : d uid <;> simp [ensure_user, hu, storePut, h]

theorem ensure_of_some (d : UserData) (uid : Nat) (p : UserPref)
    (h : d uid = some p) : ensure_user d uid = d := by
  simp [ensure_user, h]

theorem prefAt_of_some (d : UserData) (uid : Nat) (p : UserPref)
    (h : d uid = some p) : prefAt d uid = p := by
  simp [prefAt, h]

theorem targetOf_ensure (d : UserData) (uid : Nat) :
    targetOf (ensure_user d uid) uid = targetOf d uid := by
  cases h : d uid <;>
    simp [ensure_user, targetOf, h, storePut]

theorem translate_text_state (tr : Translator) (d : UserData) (uid : Nat)
    (text : String) : (translate_text tr d uid text).1 = d := by
  cases h : tr "auto" (targetOf d uid) text <;> simp [translate_text, h]

theorem translate_text_calls (tr : Translator) (d : UserData) (uid : Nat)
    (text : String) :
    (translate_text tr d uid text).2.1 = [⟨"auto", targetOf d uid, text⟩] := by
  cases h : tr "auto" (targetOf d uid) text <;> simp [translate_text, h]

theorem handle_message_state (tr : Translator) (d : UserData) (uid : Nat)
    (text : String) : (handle_message tr d uid text).1 = ensure_user d uid := by
  unfold handle_message
  split_ifs <;> simp [translate_text_state]

theorem language_callback_eq (d : UserData) (uid : Nat) (token code : String)
    (h : parse_lang_code token = some code) :
    language_callback d uid token =
      some (storePut (ensure_user d uid) uid ⟨code, (prefAt d uid).mode⟩,
        .editText ("✅ Til o\x27rnatildi: " ++
          ((lookupStr LANGUAGES code).getD "Unknown") ++ "\n\nMatn yuboring!")) := by
  simp [language_callback, h, ensure_at]

theorem lcState_eq (d : UserData) (uid : Nat) (token code : String)
    (h : parse_lang_code token = some code) :
    lcState d uid token =
      storePut (ensure_user d uid) uid ⟨code, (prefAt d uid).mode⟩ := by
  simp [lcState, language_callback_eq d uid token code h]

theorem lcState_none (d : UserData) (uid : Nat) (token : String)
    (h : parse_lang_code token = none) : lcState d uid token = d := by
  simp [lcState, language_callback, h]

theorem pySplit_ne_nil (sep : Char) (l : List Char) : pySplit sep l ≠ [] := by
  induction l with
  | nil => simp [pySplit]
  | cons c cs ih =>
    unfold pySplit
    by_cases h : c = sep
    · simp [h]
    · rw [if_neg h]
      cases hs : pySplit sep cs <;> simp

theorem pySplit_length_of_mem (sep : Char) (l : List Char) (h : sep ∈ l) :
    2 ≤ (pySplit sep l).length := by
  induction l with
  | nil => simp at h
  | cons c cs ih =>
    unfold pySplit
    by_cases hc : c = sep
    · rw [if_pos hc]
      have h1 : 1 ≤ (pySplit sep cs).length :=
        List.length_pos.mpr (pySplit_ne_nil sep cs)
      simpa using h1
    · rw [if_neg hc]
      have hcs : sep ∈ cs := by
        rcases List.mem_cons.mp h with h' | h'
        · exact absurd h'.symm hc
        · exact h'
      have h2 := ih hcs
      cases hs : pySplit sep cs with
      | nil => exact absurd hs (pySplit_ne_nil sep cs)
      | cons r rs =>
        rw [hs] at h2
        simpa using h2

/-- C1: for every free-text message, if the Translation Collaborator
raises any error, `translate_text` catches it, replies with the fixed
failure message, leaves the state untouched, and returns normally (the
total return type embeds that no exception propagates out of the
handler). -/
theorem C1_translate_failure_caught (tr : Translator) (d : UserData)
    (uid : Nat) (text e : String)
    (h : tr "auto" (targetOf d uid) text = .error e) :
    translate_text tr d uid text =
      (d, [⟨"auto", targetOf d uid, text⟩],
        .text "❌ Tarjima xatoligi. Qaytadan urinib ko\x27ring.") := by
  simp [translate_text, h]

theorem C1_translate_failure_caught_witness :
    translate_text failTr emptyData 0 "salom" =
      (emptyData, [⟨"auto", "en", "salom"⟩],
        .text "❌ Tarjima xatoligi. Qaytadan urinib ko\x27ring.") :=
  C1_translate_failure_caught failTr emptyData 0 "salom" "boom" rfl

/-- C2 counterexample: a fresh user whose very first event is the `/help`
command ends the handler with no preference record at all, refuting that
the first event of any kind leaves a record with target_language "en". -/
theorem C2_cex_first_help_no_record :
    (dispatch failTr emptyData (Event.helpCmd 0)).1 0 = none := rfl

/-- C2 (amended): for a never-seen user_id, a first `/start` or first
text message creates the record with target_language "en"; a first
`/help` creates no record; a first language callback creates the record
with target_language equal to the parsed code, not "en". -/
theorem C2_first_touch_defaults (tr : Translator) (d : UserData) (uid : Nat)
    (h : d uid = none) :
    ((dispatch tr d (Event.startCmd uid)).1 uid = some ⟨"en", "translate"⟩) ∧
    (∀ text, (dispatch tr d (Event.textMsg uid text)).1 uid =
      some ⟨"en", "translate"⟩) ∧
    ((dispatch tr d (Event.helpCmd uid)).1 uid = none) ∧
    (∀ token code, parse_lang_code token = some code →
      "lang_".data.isPrefixOf token.data = true →
      (dispatch tr d (Event.callback uid token)).1 uid =
        some ⟨code, "translate"⟩) := by
  refine ⟨?_, ?_, ?_, ?_⟩
  · simp [dispatch, start, ensure_user, h, storePut]
  · intro text
    have hs : (dispatch tr d (Event.textMsg uid text)).1 =
        ensure_user d uid := handle_message_state tr d uid text
    rw [hs]
    simp [ensure_user, h, storePut]
  · simpa [dispatch] using h
  · intro token code hp hpre
    have hlc := language_callback_eq d uid token code hp
    simp only [dispatch, hpre, if_true, hlc]
    rw [storePut_at]
    simp [prefAt, h]

theorem C2_first_touch_defaults_witness :
    ((dispatch okTr emptyData (Event.startCmd 0)).1 0 =
      some ⟨"en", "translate"⟩) ∧
    ((dispatch okTr emptyData (Event.helpCmd 0)).1 0 = none) :=
  ⟨(C2_first_touch_defaults okTr emptyData 0 rfl).1,
   (C2_first_touch_defaults okTr emptyData 0 rfl).2.2.1⟩

/-- C3 counterexample: `translate_text` reads the preference mapping
(issuing a call with the default target "en") while no entry for the
user exists, and creates none — refuting that every handler creates the
entry at its top before any read. -/
theorem C3_cex_translate_reads_without_entry :
    (translate_text okTr emptyData 1 "salom").1 1 = none ∧
    (translate_text okTr emptyData 1 "salom").2.1 =
      [⟨"auto", "en", "salom"⟩] := ⟨rfl, rfl⟩

/-- C3 (amended): under the registered dispatch every read of the stored
preference happens with the entry present: after any text-message event
the user's entry exists, and the translation calls are either none
(reserved label) or exactly one whose target equals the post-state
entry's target_language — because `handle_message` creates the entry
before `translate_text` reads, while `help`, `settings` and
`translate_text` themselves create no entries. -/
theorem C3_dispatch_reads_see_entry (tr : Translator) (d : UserData)
    (uid : Nat) (text : String) :
    (((dispatch tr d (Event.textMsg uid text)).1 uid).isSome = true) ∧
    ((dispatch tr d (Event.textMsg uid text)).2.1 = [] ∨
      (dispatch tr d (Event.textMsg uid text)).2.1 =
        [⟨"auto", targetOf (dispatch tr d (Event.textMsg uid text)).1 uid,
          text⟩]) := by
  have hs : (dispatch tr d (Event.textMsg uid text)).1 = ensure_user d uid :=
    handle_message_state tr d uid text
  constructor
  · rw [hs, ensure_at]
    rfl
  · rw [hs, targetOf_ensure]
    show (handle_message tr d uid text).2.1 = [] ∨
      (handle_message tr d uid text).2.1 = [⟨"auto", targetOf d uid, text⟩]
    unfold handle_message
    split_ifs <;>
      simp [translate_text_calls, targetOf_ensure]

/-- C4: for free text `handle_message` falls through to `translate_text`
and issues exactly one call with source "auto", the caller's stored
target (default "en"), and the text; each of the three reserved labels
dispatches to the prompt, `settings`, or `help_command` response with no
translation call. -/
theorem C4_handle_message_routes (tr : Translator) (d : UserData)
    (uid : Nat) (text : String) :
    ((text ≠ "🌍 Tarjima" → text ≠ "⚙️ Sozlamalar" → text ≠ "ℹ️ Yordam" →
      handle_message tr d uid text =
        translate_text tr (ensure_user d uid) uid text ∧
      (handle_message tr d uid text).2.1 =
        [⟨"auto", targetOf d uid, text⟩])) ∧
    (handle_message tr d uid "🌍 Tarjima" =
      (ensure_user d uid, [], .text "Matn yuboring, tarjima qilaman!")) ∧
    (handle_message tr d uid "⚙️ Sozlamalar" =
      (ensure_user d uid, [], settings)) ∧
    (handle_message tr d uid "ℹ️ Yordam" =
      (ensure_user d uid, [], help_command)) := by
  refine ⟨?_, ?_, ?_, ?_⟩
  · intro h1 h2 h3
    constructor
    · simp [handle_message, h1, h2, h3]
    · simp [handle_message, h1, h2, h3, translate_text_calls, targetOf_ensure]
  · simp [handle_message]
  · rw [handle_message, if_neg (by decide), if_pos rfl]
  · rw [handle_message, if_neg (by decide), if_neg (by decide), if_pos rfl]

theorem C4_handle_message_routes_witness :
    (handle_message okTr emptyData 3 "salom").2.1 =
      [⟨"auto", "en", "salom"⟩] :=
  ((C4_handle_message_routes okTr emptyData 3 "salom").1
    (by decide) (by decide) (by decide)).2

/-- C5: for every language code of the catalog, handling the callback
token "lang_" ++ code stores exactly that code as the user's
target_language. -/
theorem C5_catalog_code_committed (c label : String)
    (hc : (c, label) ∈ LANGUAGES) (d : UserData) (uid : Nat) :
    lcState d uid ("lang_" ++ c) uid = some ⟨c, (prefAt d uid).mode⟩ := by
  have step : ∀ code : String, parse_lang_code ("lang_" ++ code) = some code →
      lcState d uid ("lang_" ++ code) uid =
        some ⟨code, (prefAt d uid).mode⟩ := by
    intro code hp
    rw [lcState_eq d uid _ code hp, storePut_at]
  simp only [LANGUAGES, List.mem_cons, List.not_mem_nil, or_false] at hc
  rcases hc with h | h | h | h | h | h <;>
    · rw [(Prod.mk.injEq _ _ _ _).mp h |>.1]
      exact step _ rfl

theorem C5_catalog_code_committed_witness :
    lcState emptyData 7 ("lang_" ++ "ru") 7 = some ⟨"ru", "translate"⟩ :=
  C5_catalog_code_committed "ru" "🇷🇺 Русский" (by simp [LANGUAGES])
    emptyData 7

/-- C6: a callback token whose parsed code is not in the catalog is
handled without error: the handler still commits the code as the user's
target_language and edits the message with a confirmation naming
"Unknown". -/
theorem C6_unknown_code_committed (d : UserData) (uid : Nat)
    (token code : String)
    (hp : parse_lang_code token = some code)
    (hc : lookupStr LANGUAGES code = none) :
    language_callback d uid token =
      some (storePut (ensure_user d uid) uid ⟨code, (prefAt d uid).mode⟩,
        .editText "✅ Til o\x27rnatildi: Unknown\n\nMatn yuboring!") := by
  rw [language_callback_eq d uid token code hp, hc]
  rfl

theorem C6_unknown_code_committed_witness :
    language_callback emptyData 0 "lang_zz" =
      some (storePut (ensure_user emptyData 0) 0 ⟨"zz", "translate"⟩,
        .editText "✅ Til o\x27rnatildi: Unknown\n\nMatn yuboring!") :=
  C6_unknown_code_committed emptyData 0 "lang_zz" "zz" rfl rfl

/-- C7: the settings handler replies with the language prompt and an
inline keyboard holding one button per catalog entry in catalog order,
two buttons per row (three rows of two for the six-entry catalog), each
button's callback token being "lang_" ++ code. -/
theorem C7_settings_keyboard :
    settings = .textWithInline "⚙️ Tarjima tilini tanlang:"
      get_language_keyboard ∧
    get_language_keyboard.flatten.map InlineButton.callback_data =
      LANGUAGES.map (fun p => "lang_" ++ p.1) ∧
    get_language_keyboard.flatten.map InlineButton.label =
      LANGUAGES.map Prod.snd ∧
    get_language_keyboard.map List.length = [2, 2, 2] :=
  ⟨rfl, rfl, rfl, rfl⟩

/-- C8: handling a start command, help command, or any text message
(including the reserved settings label) leaves every existing preference
record — its target_language in particular — and every other user's
record unchanged; only the language callback mutates them. -/
theorem C8_target_language_frame (tr : Translator) (d : UserData)
    (uid v : Nat) (p : UserPref) (hv : d v = some p) :
    ((dispatch tr d (Event.startCmd uid)).1 v = some p) ∧
    ((dispatch tr d (Event.helpCmd uid)).1 v = some p) ∧
    (∀ text, (dispatch tr d (Event.textMsg uid text)).1 v = some p) := by
  have hens : ensure_user d uid v = some p := by
    by_cases h : v = uid
    · subst h
      rw [ensure_at, prefAt_of_some d v p hv]
    · rw [ensure_ne d uid v h]
      exact hv
  refine ⟨?_, ?_, ?_⟩
  · simpa [dispatch, start] using hens
  · simpa [dispatch] using hv
  · intro text
    rw [show (dispatch tr d (Event.textMsg uid text)).1 =
      (handle_message tr d uid text).1 from rfl, handle_message_state]
    exact hens

theorem C8_target_language_frame_witness :
    ((dispatch okTr (storePut emptyData 5 ⟨"ru", "translate"⟩)
        (Event.startCmd 5)).1 5 = some ⟨"ru", "translate"⟩) ∧
    ((dispatch okTr (storePut emptyData 5 ⟨"ru", "translate"⟩)
        (Event.textMsg 5 "salom")).1 5 = some ⟨"ru", "translate"⟩) :=
  ⟨(C8_target_language_frame okTr _ 5 5 _ rfl).1,
   (C8_target_language_frame okTr _ 5 5 _ rfl).2.2 "salom"⟩

/-- C9: handling the language callback twice in a row with the same
token leaves exactly the state (hence the stored target_language) that
handling it once leaves; when the parse raises, neither run mutates the
state. -/
theorem C9_language_callback_idem (d : UserData) (uid : Nat)
    (token : String) :
    lcState (lcState d uid token) uid token = lcState d uid token := by
  cases hp : parse_lang_code token with
  | none => rw [lcState_none _ _ _ hp, lcState_none _ _ _ hp]
  | some code =>
    rw [lcState_eq d uid token code hp]
    have h1 : storePut (ensure_user d uid) uid ⟨code, (prefAt d uid).mode⟩ uid
        = some ⟨code, (prefAt d uid).mode⟩ := storePut_at _ _ _
    rw [lcState_eq _ uid token code hp,
      ensure_of_some _ uid ⟨code, (prefAt d uid).mode⟩ h1,
      prefAt_of_some _ uid ⟨code, (prefAt d uid).mode⟩ h1]
    exact storePut_storePut _ _ _

/-- C10: every callback token matched by the registered pattern
'^lang_' begins with "lang_", hence contains an underscore, so the
split has at least two fields and the index-1 parse never raises. -/
theorem C10_pattern_parse_total (token : String)
    (h : ∃ rest, token.data = "lang_".data ++ rest) :
    (parse_lang_code token).isSome = true := by
  obtain ⟨rest, hr⟩ := h
  have hmem : '_' ∈ token.data := by
    rw [hr]
    exact List.mem_append_left _ (by simp)
  have hlen : 2 ≤ (pySplit '_' token.data).length :=
    pySplit_length_of_mem '_' token.data hmem
  unfold parse_lang_code
  cases hsp : pySplit '_' token.data with
  | nil => exact absurd hsp (pySplit_ne_nil _ _)
  | cons a l1 =>
    cases l1 with
    | nil => rw [hsp] at hlen; simp at hlen
    | cons b l2 => simp

theorem C10_pattern_parse_total_witness :
    (parse_lang_code "lang_ru").isSome = true :=
  C10_pattern_parse_total "lang_ru" ⟨"ru".data, rfl⟩

end Bot
